import Mathlib

/-!
# Botfighter: shallow embedding and verification

This file embeds the geometry kernel, sensor subsystem, decision policy,
patrol state machine and the engine update loop of the Botfighter
repository (`server.py`, `dummy_agent.py`, `engine.py`) as executable Lean
definitions over `ℚ`, and proves or refutes the frozen specification
claims about them.

Modelling conventions:
* Python floats are modelled as rationals (`ℚ`); all arithmetic in the
  embedded code is exact rational arithmetic.
* Euclidean distances appear in the source only through comparisons
  (`math.sqrt(d) < c`) and through reporting a computed distance.  Since
  `sqrt` is strictly monotone on nonnegatives, every distance in this
  embedding is represented by its *square* and every threshold by the
  square of the source threshold (e.g. the laser range 50 becomes 2500).
* Trigonometric primitives (`math.cos`/`math.sin` of the heading,
  `math.atan2`) cannot be evaluated in `ℚ`; functions that need them take
  the cosine/sine value, or an `atan2`-in-degrees oracle, as an explicit
  argument.
* Python `random.*` draws are passed in as explicit oracle arguments.
-/

namespace Botfighter

/-- An axis-aligned wall rectangle, as in the `walls_data` dicts of
`server.py` and `pygame.Rect` walls of `engine.py`. -/
structure Rect where
  x : ℚ
  y : ℚ
  width : ℚ
  height : ℚ
deriving DecidableEq, Repr

/-- `server.py line_intersects_line`: segment/segment intersection test via
the parametric solution; parallel (`den == 0`) is "no intersection", and the
parameter bounds are the source's non-strict `0 <= ua <= 1 and 0 <= ub <= 1`. -/
def line_intersects_line (x1 y1 x2 y2 x3 y3 x4 y4 : ℚ) : Bool :=
  let den := (y4 - y3) * (x2 - x1) - (x4 - x3) * (y2 - y1)
  if den = 0 then false
  else
    let ua := ((x4 - x3) * (y1 - y3) - (y4 - y3) * (x1 - x3)) / den
    let ub := ((x2 - x1) * (y1 - y3) - (y2 - y1) * (x1 - x3)) / den
    decide (0 ≤ ua ∧ ua ≤ 1 ∧ 0 ≤ ub ∧ ub ≤ 1)

/-- `server.py get_intersection_point`: the intersection point of the two
(infinite) lines through the segments, `none` when parallel. -/
def get_intersection_point (x1 y1 x2 y2 x3 y3 x4 y4 : ℚ) : Option (ℚ × ℚ) :=
  let den := (y4 - y3) * (x2 - x1) - (x4 - x3) * (y2 - y1)
  if den = 0 then none
  else
    let ua := ((x4 - x3) * (y1 - y3) - (y4 - y3) * (x1 - x3)) / den
    some (x1 + ua * (x2 - x1), y1 + ua * (y2 - y1))

/-- The four edges of a rectangle in the fixed order used by
`server.py line_intersects_rect`: top, right, bottom, left. -/
def rect_edges (r : Rect) : List (ℚ × ℚ × ℚ × ℚ) :=
  let left := r.x
  let top := r.y
  let right := left + r.width
  let bottom := top + r.height
  [ (left, top, right, top),
    (right, top, right, bottom),
    (right, bottom, left, bottom),
    (left, bottom, left, top) ]

/-- Helper for `line_intersects_rect`: return `get_intersection_point` of the
first edge (in list order) whose segment-intersection test succeeds, exactly
as the source's `for`-loop with an early `return` does. -/
def first_edge_hit (x1 y1 x2 y2 : ℚ) : List (ℚ × ℚ × ℚ × ℚ) → Option (ℚ × ℚ)
  | [] => none
  | (x3, y3, x4, y4) :: es =>
    if line_intersects_line x1 y1 x2 y2 x3 y3 x4 y4 then
      get_intersection_point x1 y1 x2 y2 x3 y3 x4 y4
    else first_edge_hit x1 y1 x2 y2 es

/-- `server.py line_intersects_rect`: tests the segment against the four
edges in top/right/bottom/left order and returns the intersection point of
the *first* edge hit (not necessarily the nearest one). -/
def line_intersects_rect (x1 y1 x2 y2 : ℚ) (rect : Rect) : Option (ℚ × ℚ) :=
  first_edge_hit x1 y1 x2 y2 (rect_edges rect)

/-- Squared Euclidean distance (the source computes
`math.sqrt((ax-bx)**2 + (ay-by)**2)`; we keep the square). -/
def dist_sq (ax ay bx by' : ℚ) : ℚ :=
  (bx - ax) ^ 2 + (by' - ay) ^ 2

/-- The state of the wall-scanning fold inside `check_laser`:
`min_distance` (squared, initially `50**2`) and `closest_hit`. -/
def check_laser_step (x y ex ey : ℚ) (acc : ℚ × Option (ℚ × ℚ)) (wall : Rect) :
    ℚ × Option (ℚ × ℚ) :=
  match line_intersects_rect x y ex ey wall with
  | none => acc
  | some (hx, hy) =>
    let d := dist_sq x y hx hy
    if d < acc.1 then (d, some (hx, hy)) else acc

/-- `server.py check_laser`: cast a 50-unit ray from `(x, y)` along the
heading whose cosine/sine are `c`/`s`, and fold over the walls keeping the
closest per-wall first-edge intersection strictly below the max range.
Returns `(hit, reported squared distance)`. -/
def check_laser (x y c s : ℚ) (walls : List Rect) : Bool × Option ℚ :=
  let end_x := x + c * 50
  let end_y := y + s * 50
  let res := walls.foldl (check_laser_step x y end_x end_y) (2500, none)
  (res.2.isSome, if res.2.isSome then some res.1 else none)

/-- `server.py is_visible`: line-of-sight test from `(from_x, from_y)` to
`(to_x, to_y)`.  Distance below 30 (squared: 900) is always visible; else
each wall is first screened by the source's center-vs-bounding-box check and,
if not skipped, tested with `line_intersects_rect`. -/
def is_visible (from_x from_y to_x to_y : ℚ) (walls : List Rect) : Bool :=
  if dist_sq from_x from_y to_x to_y < 900 then true
  else
    walls.all fun wall =>
      let wall_center_x := wall.x + wall.width / 2
      let wall_center_y := wall.y + wall.height / 2
      let min_x := min from_x to_x - 20
      let max_x := max from_x to_x + 20
      let min_y := min from_y to_y - 20
      let max_y := max from_y to_y + 20
      if (wall_center_x < min_x ∨ wall_center_x > max_x) ∧
          (wall_center_y < min_y ∨ wall_center_y > max_y) then true
      else (line_intersects_rect from_x from_y to_x to_y wall).isNone

/-- `dummy_agent.py DummyAgent._line_intersects_line`: the strict
orientation-sign (`ccw`) variant of the segment intersection test. -/
def ccw (ax ay bx by' cx cy : ℚ) : Bool :=
  decide ((cy - ay) * (bx - ax) > (by' - ay) * (cx - ax))

/-- `dummy_agent.py DummyAgent._line_intersects_line` (see `ccw`). -/
def agent_line_intersects_line (x1 y1 x2 y2 x3 y3 x4 y4 : ℚ) : Bool :=
  (ccw x1 y1 x3 y3 x4 y4 != ccw x2 y2 x3 y3 x4 y4) &&
    (ccw x1 y1 x2 y2 x3 y3 != ccw x1 y1 x2 y2 x4 y4)

/-- Ship entry of the published game state (`server.py class Ship`). -/
structure ShipEntry where
  x : ℚ
  y : ℚ
  angle : ℚ
deriving DecidableEq, Repr

/-- Bullet entry of the published game state (`server.py class Bullet`). -/
structure BulletEntry where
  x : ℚ
  y : ℚ
  angle : ℚ
  lifespan : ℤ
  owner : ℤ
deriving DecidableEq, Repr

/-- Coin entry of the published game state (`server.py class Coin`). -/
structure CoinEntry where
  x : ℚ
  y : ℚ
deriving DecidableEq, Repr

/-- The server's in-memory game-state cache (`server.py game_state` dict /
`class GameState`). -/
structure ServerGameState where
  ships : List ShipEntry
  bullets : List BulletEntry
  coins : List CoinEntry
  score : List ℤ
deriving DecidableEq, Repr

/-- `server.py` module initialization of the `game_state` global: all four
fields start as empty lists (`server.py` lines 106-111). -/
def initial_game_state : ServerGameState :=
  { ships := [], bullets := [], coins := [], score := [] }

/-- `server.py get_game_state` (the `/game_state` endpoint): returns the
cached state verbatim. -/
def get_game_state (st : ServerGameState) : ServerGameState := st

/-- Modelled from the spec (§6 State query): the "empty-shaped default"
`{ships:[],bullets:[],coins:[],score:[0,0]}` the spec says an unpublished
server returns.  Used only to compare the spec's words with the source's
`initial_game_state`. -/
def empty_shaped_default_spec : ServerGameState :=
  { ships := [], bullets := [], coins := [], score := [0, 0] }

/-- One radar return (`server.py class RadarResult` / the radar dicts built
by `/sense`): `type` is the Python string tag, `distance` is squared. -/
structure RadarObj where
  type : String
  distance : ℚ
  angle : ℚ
deriving DecidableEq, Repr

instance : Inhabited RadarObj := ⟨⟨"", 0, 0⟩⟩

/-- The dict returned by the `/sense` endpoint, as consumed by
`DummyAgent.decide_from_sensors`.  `position_attr` models the Python
attribute `position` when the passed value is an *object* carrying one
(`hasattr(sensor_data, "position")` in `_update_stuck_detection`); for the
plain dicts produced by `/sense` it is `none`. -/
structure SensorData where
  laser_hit : Bool
  laser_distance : Option ℚ
  radar_objects : List RadarObj
  position_attr : Option (ℚ × ℚ)
deriving DecidableEq, Repr

/-- A `{rotate, thrust, shoot}` control command. -/
structure Command where
  rotate : ℚ
  thrust : ℚ
  shoot : Bool
deriving DecidableEq, Repr

/-- The neutral fallback command `{"rotate": 0, "thrust": 0, "shoot": False}`. -/
def neutral_command : Command := { rotate := 0, thrust := 0, shoot := false }

/-- `dummy_agent.py` `self.stuck_detection` dict.  `stuck_count` is a Python
int (`max(0, ...)` keeps it nonnegative, but we keep `ℤ` as the source does). -/
structure StuckDetection where
  position : Option (ℚ × ℚ)
  last_position : Option (ℚ × ℚ)
  check_time : ℚ
  last_check_time : ℚ
  is_stuck : Bool
  stuck_count : ℤ
  escape_direction : ℤ
deriving DecidableEq, Repr

/-- The `stuck_detection` dict as initialized in `DummyAgent.__init__` at
(model) time `t0`. -/
def init_stuck_detection (t0 : ℚ) : StuckDetection :=
  { position := none
    last_position := none
    check_time := t0
    last_check_time := t0
    is_stuck := false
    stuck_count := 0
    escape_direction := 1 }

/-- `dummy_agent.py DummyAgent._update_stuck_detection`.  `cur` is the
position attribute extracted from `sensor_data` (`none` when the argument is
a dict, which has no `position` attribute).  The displacement test
`sqrt(dx*dx+dy*dy) < 5` is represented squared (`< 25`). -/
def update_stuck_detection (now : ℚ) (cur : Option (ℚ × ℚ)) (sd : StuckDetection) :
    StuckDetection :=
  match sd.position, cur with
  | none, some p =>
    -- first sample: initialize and return early (the source's early `return`
    -- skips the trailing timer rollover)
    { sd with
      position := some p
      last_position := some p
      check_time := now
      last_check_time := now }
  | some prev, some p =>
    let dsq := (p.1 - prev.1) * (p.1 - prev.1) + (p.2 - prev.2) * (p.2 - prev.2)
    let sd1 :=
      if dsq < 25 then
        let c := sd.stuck_count + 1
        { sd with
          stuck_count := c
          is_stuck := if 3 ≤ c then true else sd.is_stuck }
      else
        { sd with is_stuck := false, stuck_count := max 0 (sd.stuck_count - 1) }
    { sd1 with
      last_position := sd.position
      position := some p
      last_check_time := sd.check_time
      check_time := now }
  | _, none =>
    { sd with last_check_time := sd.check_time, check_time := now }

/-- `dummy_agent.py` `self.target_memory`.  The source initializes the dict
with `type: None` and reads `distance`/`angle`/`last_seen` only after `type`
has been set (the read is guarded by `self.target_memory["type"] and ...`),
so modelling the unset numeric fields as `0` is observationally faithful. -/
structure TargetMemory where
  type : Option String
  distance : ℚ
  angle : ℚ
  last_seen : ℚ
deriving DecidableEq, Repr

/-- The full mutable state of a `DummyAgent` (fields of `__init__` read or
written by `decide_from_sensors`; `wall_memory` is written nowhere and
omitted). -/
structure AgentState where
  last_direction_change : ℚ
  current_rotation : ℚ
  last_actions : Command
  target_memory : TargetMemory
  stuck_detection : StuckDetection
deriving DecidableEq, Repr

/-- `DummyAgent.__init__` at (model) time `t0`. -/
def init_agent_state (t0 : ℚ) : AgentState :=
  { last_direction_change := t0
    current_rotation := 0
    last_actions := neutral_command
    target_memory := { type := none, distance := 0, angle := 0, last_seen := 0 }
    stuck_detection := init_stuck_detection t0 }

/-- `dummy_agent.py DummyAgent._calculate_turn_rate`. -/
def calculate_turn_rate (angle : ℚ) (aggressive : Bool) : ℚ :=
  if !aggressive then
    if |angle| < 20 then angle * (15 / 100)
    else if |angle| < 90 then 3 * (if angle > 0 then 1 else -1)
    else 4 * (if angle > 0 then 1 else -1)
  else
    if |angle| < 20 then angle * (2 / 10)
    else if |angle| < 90 then 5 * (if angle > 0 then 1 else -1)
    else 8 * (if angle > 0 then 1 else -1)

/-- Pre-drawn values for every `random.*` call `decide_from_sensors` (or a
branch it can reach) might make this call. -/
structure RandOracle where
  /-- `random.choice([-1, 1])` in the hard wall-ahead branch. -/
  choice_sign : ℚ
  /-- `random.uniform(-2, 2)` in the explore branch. -/
  explore_rotation : ℚ
  /-- `random.uniform(-3, 3)` in `_random_action`. -/
  ra_rotate : ℚ
  /-- `random.uniform(0.1, 0.5)` in `_random_action`. -/
  ra_thrust : ℚ
  /-- `random.random() < 0.05` in `_random_action`. -/
  ra_shoot : Bool
deriving DecidableEq, Repr

/-- `dummy_agent.py DummyAgent._random_action`. -/
def random_action (rnd : RandOracle) : Command :=
  { rotate := rnd.ra_rotate, thrust := rnd.ra_thrust, shoot := rnd.ra_shoot }

/-- Pre-drawn values for the `random.*` calls of `DummyAgent._legacy_decide`. -/
structure LegacyRandOracle where
  /-- `random.random() < 0.05`. -/
  draw : Bool
  rotate : ℚ
  thrust : ℚ
  shoot : Bool
deriving DecidableEq, Repr

/-- Stable insertion of a radar object into a distance-sorted list (an
earlier element is kept before later equal-distance ones, as Python's stable
`list.sort(key=...)` does). -/
def insert_by_distance (a : RadarObj) : List RadarObj → List RadarObj
  | [] => [a]
  | b :: bs =>
    if a.distance ≤ b.distance then a :: b :: bs else b :: insert_by_distance a bs

/-- Python's stable `objects.sort(key=lambda x: x["distance"])`. -/
def sort_by_distance (l : List RadarObj) : List RadarObj :=
  l.foldr insert_by_distance []

/-- The stuck-escape branch of `decide_from_sensors` (lines 48-57): flip the
escape direction, then back up on even stuck counts and creep forward on odd
ones. -/
def stuck_escape_branch (st : AgentState) : Command × AgentState :=
  let esc := -st.stuck_detection.escape_direction
  let st := { st with stuck_detection.escape_direction := esc }
  let turn_angle : ℚ := 45 * esc
  if st.stuck_detection.stuck_count % 2 = 0 then
    ({ rotate := turn_angle, thrust := -(8 / 10), shoot := false }, st)
  else
    ({ rotate := turn_angle, thrust := 2 / 10, shoot := false }, st)

/-- The near-wall avoidance branch of `decide_from_sensors`
(lines 60-80), taken when the laser reports a hit closer than 50. -/
def wall_avoidance_branch (distance : ℚ) (st : AgentState) : Command × AgentState :=
  let turn_direction : ℚ := if st.last_actions.rotate ≥ 0 then 1 else -1
  let turn_amount : ℚ := if distance < 20 then 15 else 8
  let turn_angle := turn_amount * turn_direction
  let thrust_amount : ℚ := if distance < 20 then 0 else 1 / 10
  ({ rotate := turn_angle, thrust := thrust_amount, shoot := false }, st)

/-- The enemy-engagement branch of `decide_from_sensors` (lines 100-137):
remember the nearest enemy, then retreat-and-shoot / circle-strafe /
approach depending on its distance.  `distance` fields are squared, so the
source thresholds 100, 50 and 300 appear as 10000, 2500 and 90000. -/
def enemy_engagement_branch (now : ℚ) (nearest_enemy : RadarObj) (st : AgentState) :
    Command × AgentState :=
  let st := { st with
    target_memory := { type := some "enemy", distance := nearest_enemy.distance,
                       angle := nearest_enemy.angle, last_seen := now } }
  if nearest_enemy.distance < 10000 then
    if nearest_enemy.distance < 2500 then
      ({ rotate := calculate_turn_rate nearest_enemy.angle true
         thrust := -(5 / 10)
         shoot := |nearest_enemy.angle| < 15 }, st)
    else
      let circle_direction : ℚ := if nearest_enemy.angle > 0 then 1 else -1
      ({ rotate := 3 * circle_direction
         thrust := 3 / 10
         shoot := |nearest_enemy.angle| < 10 }, st)
  else
    ({ rotate := calculate_turn_rate nearest_enemy.angle false
       thrust := if |nearest_enemy.angle| < 30 then 5 / 10 else 2 / 10
       shoot := |nearest_enemy.angle| < 5 ∧ nearest_enemy.distance < 90000 }, st)

/-- The coin-collection branch of `decide_from_sensors` (lines 140-164):
remember the nearest coin and steer toward it (threshold 30° on the relative
angle; never shoot). -/
def coin_collection_branch (now : ℚ) (nearest_coin : RadarObj) (st : AgentState) :
    Command × AgentState :=
  let st := { st with
    target_memory := { type := some "coin", distance := nearest_coin.distance,
                       angle := nearest_coin.angle, last_seen := now } }
  let turn_rate := calculate_turn_rate nearest_coin.angle false
  let thrust_value : ℚ := if |nearest_coin.angle| < 30 then 1 else 5 / 10
  ({ rotate := turn_rate, thrust := thrust_value, shoot := false }, st)

/-- `dummy_agent.py DummyAgent.decide_from_sensors`.  `sensor_data = none`
models a falsy argument (Python `if not sensor_data`).  The rule chain is
the source's: null-data, stuck-detection refresh, stuck escape, near-wall
avoidance (laser hit `< 50`), hard wall-ahead override (laser hit `< 30`,
with the same distance value, hence unreachable past the previous rule),
enemies, coins, target memory, explore. -/
def decide_from_sensors (now : ℚ) (rnd : RandOracle) (sensor_data : Option SensorData)
    (st : AgentState) : Command × AgentState :=
  match sensor_data with
  | none => (random_action rnd, st)
  | some sd =>
    let st :=
      if now - st.stuck_detection.check_time > 1 then
        { st with stuck_detection :=
            update_stuck_detection now sd.position_attr st.stuck_detection }
      else st
    if st.stuck_detection.is_stuck then
      stuck_escape_branch st
    else
      let distance := sd.laser_distance.getD 100
      if sd.laser_hit ∧ distance < 50 then
        wall_avoidance_branch distance st
      else if sd.laser_hit ∧ distance < 30 then
        ({ rotate := 5 * rnd.choice_sign, thrust := 0, shoot := false }, st)
      else
        let enemies := sd.radar_objects.filter fun o => o.type = "enemy"
        let coins := sd.radar_objects.filter fun o => o.type = "coin"
        match sort_by_distance enemies with
        | nearest_enemy :: _ => enemy_engagement_branch now nearest_enemy st
        | [] =>
          match sort_by_distance coins with
          | nearest_coin :: _ => coin_collection_branch now nearest_coin st
          | [] =>
            if st.target_memory.type.isSome ∧ now - st.target_memory.last_seen < 2 then
              ({ rotate := calculate_turn_rate st.target_memory.angle false
                 thrust := 7 / 10
                 shoot := false }, st)
            else
              let st :=
                if now - st.last_direction_change > 3 then
                  { st with
                    current_rotation := rnd.explore_rotation
                    last_direction_change := now }
                else st
              ({ rotate := st.current_rotation, thrust := 5 / 10, shoot := false }, st)

/-- Python's float modulo (`a % b`, floored toward `-∞` for positive `b`). -/
def pymod (a b : ℚ) : ℚ := a - b * ⌊a / b⌋

/-- Interpretation of the transcendental primitives the sensors use:
`math.cos(math.radians θ)`, `math.sin(math.radians θ)` and
`math.degrees(math.atan2 dy dx)`.  These have no exact rational values, so
the embedding is parametric in them. -/
structure TrigOracle where
  cos_deg : ℚ → ℚ
  sin_deg : ℚ → ℚ
  atan2_deg : ℚ → ℚ → ℚ

/-- The relative-bearing normalization used twice inside `/sense`:
`(absolute_angle - ship_angle + 360) % 360`, folded into `(-180, 180]`. -/
def relative_angle (absolute_angle ship_angle : ℚ) : ℚ :=
  let r := pymod (absolute_angle - ship_angle + 360) 360
  if r > 180 then r - 360 else r

/-- The fixed `walls_data` layout of `server.py` (22 rectangles). -/
def walls_data : List Rect :=
  [ ⟨50, 50, 1900, 20⟩, ⟨50, 50, 20, 1900⟩, ⟨50, 1930, 1900, 20⟩,
    ⟨1930, 50, 20, 1900⟩,
    ⟨200, 200, 20, 400⟩, ⟨200, 600, 400, 20⟩, ⟨600, 200, 20, 400⟩,
    ⟨600, 600, 400, 20⟩, ⟨1000, 200, 20, 800⟩, ⟨200, 1000, 800, 20⟩,
    ⟨1200, 200, 20, 800⟩, ⟨1200, 1000, 400, 20⟩, ⟨1600, 200, 20, 800⟩,
    ⟨200, 1400, 400, 20⟩, ⟨600, 1400, 20, 400⟩, ⟨600, 1800, 400, 20⟩,
    ⟨1000, 1400, 20, 400⟩, ⟨1200, 1400, 400, 20⟩, ⟨1600, 1400, 20, 400⟩,
    ⟨300, 300, 100, 20⟩, ⟨1500, 1500, 100, 20⟩, ⟨800, 800, 20, 100⟩ ]

/-- The ship-scanning loop of `/sense`: every other ship within radar range
(800 units; squared 640000) and visible becomes an `"enemy"` radar object. -/
def radar_ships (trig : TrigOracle) (ship_id : ℤ) (ship_x ship_y ship_angle : ℚ)
    (ships : List ShipEntry) (walls : List Rect) : List RadarObj :=
  (ships.enum.filterMap fun (i, other) =>
    if (i : ℤ) = ship_id then none
    else
      let dx := other.x - ship_x
      let dy := other.y - ship_y
      let d := dx * dx + dy * dy
      if d > 640000 then none
      else if is_visible ship_x ship_y other.x other.y walls then
        some { type := "enemy", distance := d,
               angle := relative_angle (trig.atan2_deg dy dx) ship_angle }
      else none)

/-- The coin-scanning loop of `/sense`: every coin within radar range and
visible becomes a `"coin"` radar object. -/
def radar_coins (trig : TrigOracle) (ship_x ship_y ship_angle : ℚ)
    (coins : List CoinEntry) (walls : List Rect) : List RadarObj :=
  (coins.filterMap fun coin =>
    let dx := coin.x - ship_x
    let dy := coin.y - ship_y
    let d := dx * dx + dy * dy
    if d > 640000 then none
    else if is_visible ship_x ship_y coin.x coin.y walls then
      some { type := "coin", distance := d,
             angle := relative_angle (trig.atan2_deg dy dx) ship_angle }
    else none)

/-- `server.py` `/sense` endpoint: combined laser (against `walls_data`) and
radar (against the cached game state) readings for the requested pose.  The
returned value is the plain dict the endpoint builds, so it carries no
`position` attribute. -/
def sense (trig : TrigOracle) (ship_id : ℤ) (ship_x ship_y ship_angle : ℚ)
    (gs : ServerGameState) : SensorData :=
  let laser := check_laser ship_x ship_y (trig.cos_deg ship_angle)
      (trig.sin_deg ship_angle) walls_data
  { laser_hit := laser.1
    laser_distance := laser.2
    radar_objects :=
      radar_ships trig ship_id ship_x ship_y ship_angle gs.ships walls_data ++
        radar_coins trig ship_x ship_y ship_angle gs.coins walls_data
    position_attr := none }

/-- A Python dict-lookup result: `none` models a missing key (a `KeyError`
site when accessed with `[...]`). -/
def py_key {α : Type} (o : Option α) : Except Unit α :=
  match o with
  | some a => .ok a
  | none => .error ()

/-- Python list indexing `l[i]` with negative-index wrapping; out of range is
an `IndexError`. -/
def py_list_get {α : Type} (l : List α) (i : ℤ) : Except Unit α :=
  let j := if i < 0 then i + l.length else i
  if h : 0 ≤ j ∧ j.toNat < l.length then .ok (l.get ⟨j.toNat, h.2⟩) else .error ()

/-- One `{"x": ..., "y": ..., "angle": ...}` ship dict of the `/decide/`
payload; `none` fields model missing keys. -/
structure ShipFieldDict where
  x : Option ℚ
  y : Option ℚ
  angle : Option ℚ
deriving DecidableEq, Repr

/-- The `game_data` dict posted to `/decide/`; `none` fields model missing
keys (`ship_id` is read with `.get("ship_id", 0)`, so only `ships` can raise). -/
structure GameDataDict where
  ship_id : Option ℤ
  ships : Option (List ShipFieldDict)
deriving DecidableEq, Repr

/-- The `try:`-body of the `/decide/` endpoint (`server.py` lines 124-139):
extract the ship pose from the posted game data (any missing key or bad
index raises), read the sensors, and let the agent decide. -/
def decide_endpoint_body (trig : TrigOracle) (now : ℚ) (rnd : RandOracle)
    (g : GameDataDict) (gs : ServerGameState) (st : AgentState) :
    Except Unit (Command × AgentState) := do
  let ship_id := g.ship_id.getD 0
  let ships ← py_key g.ships
  let entry ← py_list_get ships ship_id
  let x ← py_key entry.x
  let y ← py_key entry.y
  let angle ← py_key entry.angle
  let sensor_data := sense trig ship_id x y angle gs
  .ok (decide_from_sensors now rnd (some sensor_data) st)

/-- `server.py` `/decide/` endpoint: the body above wrapped in the
`try/except` that falls back to the neutral command. -/
def decide_endpoint (trig : TrigOracle) (now : ℚ) (rnd : RandOracle)
    (g : GameDataDict) (gs : ServerGameState) (st : AgentState) :
    Command × AgentState :=
  match decide_endpoint_body trig now rnd g gs st with
  | .ok r => r
  | .error _ => (neutral_command, st)

/-- The argument shapes `DummyAgent.decide` distinguishes: a dict containing
the key `"laser_hit"` (sensor-shaped) or any other dict (legacy world
state, whose `"ships"` key may be missing — a `KeyError` site). -/
inductive AgentDecideArg where
  | sensor_dict (sd : SensorData)
  | world_dict (ships : Option (List ShipEntry))
deriving DecidableEq, Repr

/-- `dummy_agent.py DummyAgent._legacy_decide` (the accessed
`game_state["ships"][self.ship_index]` entry exists by the caller's guard
and is otherwise unused). -/
def legacy_decide (lrnd : LegacyRandOracle) (st : AgentState) : Command × AgentState :=
  if lrnd.draw then
    ({ rotate := lrnd.rotate, thrust := lrnd.thrust, shoot := lrnd.shoot }, st)
  else
    ({ rotate := 5 / 10, thrust := 5 / 10, shoot := false }, st)

/-- The `try:`-body of `DummyAgent.decide` (`dummy_agent.py` lines 228-236). -/
def agent_decide_body (ship_index : ℕ) (now : ℚ) (rnd : RandOracle)
    (lrnd : LegacyRandOracle) (arg : AgentDecideArg) (st : AgentState) :
    Except Unit (Command × AgentState) :=
  match arg with
  | .sensor_dict sd => .ok (decide_from_sensors now rnd (some sd) st)
  | .world_dict oships => do
    let ships ← py_key oships
    if ship_index < ships.length then .ok (legacy_decide lrnd st)
    else .ok (neutral_command, st)

/-- `dummy_agent.py DummyAgent.decide`: the body wrapped in the `try/except`
returning the neutral command on any exception. -/
def agent_decide (ship_index : ℕ) (now : ℚ) (rnd : RandOracle)
    (lrnd : LegacyRandOracle) (arg : AgentDecideArg) (st : AgentState) :
    Command × AgentState :=
  match agent_decide_body ship_index now rnd lrnd arg st with
  | .ok r => r
  | .error _ => (neutral_command, st)

/-- The three patrol states of `engine.py` (`PATROL_STATE_*`). -/
inductive PState where
  | forward
  | turning
  | wallAvoid
deriving DecidableEq, Repr

/-- The patrol fields of an `engine.py SpaceObject`
(`patrol_state`, `patrol_timer`, `patrol_turn_target`, `patrol_direction`).
`patrol_movement`'s state transitions read and write only these fields; its
`thrust`/`rotate` calls mutate the physics fields, which never feed back
into the transition logic, so they are not carried here. -/
structure PatrolData where
  patrol_state : PState
  patrol_timer : ℤ
  patrol_turn_target : ℚ
  patrol_direction : ℚ
deriving DecidableEq, Repr

/-- The per-tick inputs of `patrol_movement` that the embedding takes as
oracles: the result of the 80-unit look-ahead wall probe (which needs
`cos`/`sin` and the wall set) and the random draws. -/
structure PatrolTick where
  /-- `look_rect.colliderect(wall)` for some wall (the forward probe). -/
  wall_ahead : Bool
  /-- `random.random() < 0.01` (the FORWARD → TURNING transition draw). -/
  transition_draw : Bool
  /-- `random.choice([-1, 1])` for the turn target sign. -/
  turn_sign : ℚ
  /-- `random.randint(70, 110)` for the turn target magnitude. -/
  turn_magnitude : ℚ
deriving DecidableEq, Repr

/-- `engine.py patrol_movement` (lines 528-612) restricted to its patrol
fields: increment the timer, then run the FORWARD / TURNING / WALL_AVOID
state machine.  Returns the updated fields and the probe result (the
source's return value). -/
def patrol_movement (tick : PatrolTick) (e : PatrolData) : PatrolData × Bool :=
  let e := { e with patrol_timer := e.patrol_timer + 1 }
  let e :=
    match e.patrol_state with
    | .forward =>
      let e :=
        if e.patrol_timer > 180 ∧ tick.transition_draw then
          let tgt := tick.turn_sign * tick.turn_magnitude
          { e with
            patrol_state := .turning
            patrol_timer := 0
            patrol_turn_target := tgt
            patrol_direction := if tgt > 0 then 1 else -1 }
        else e
      if tick.wall_ahead then { e with patrol_state := .wallAvoid, patrol_timer := 0 }
      else e
    | .turning =>
      let turn_amount := min 2 (|e.patrol_turn_target| * (1 / 10))
      let e := { e with
        patrol_turn_target := e.patrol_turn_target - turn_amount * e.patrol_direction }
      let e :=
        if |e.patrol_turn_target| < 5 ∨ e.patrol_timer > 120 then
          { e with patrol_state := .forward, patrol_timer := 0 }
        else e
      if tick.wall_ahead then { e with patrol_state := .wallAvoid, patrol_timer := 0 }
      else e
    | .wallAvoid =>
      let e :=
        if e.patrol_timer > 30 ∧ ¬tick.wall_ahead then
          { e with
            patrol_state := .forward
            patrol_timer := 0
            patrol_direction := -e.patrol_direction }
        else e
      if e.patrol_timer > 90 then
        { e with patrol_state := .turning, patrol_timer := 0, patrol_turn_target := 180 }
      else e
  (e, tick.wall_ahead)

/-- Iterating `patrol_movement` over a list of per-tick inputs. -/
def patrol_run (ticks : List PatrolTick) (e : PatrolData) : PatrolData :=
  ticks.foldl (fun st tick => (patrol_movement tick st).1) e

/-- A `pygame.Rect`: integer position and size (the constructor truncates
float arguments toward zero). -/
structure PyRect where
  x : ℤ
  y : ℤ
  width : ℤ
  height : ℤ
deriving DecidableEq, Repr

/-- Python's `int()` / `pygame.Rect` float-to-int conversion: truncation
toward zero. -/
def py_int (q : ℚ) : ℤ := if 0 ≤ q then ⌊q⌋ else -⌊-q⌋

/-- `pygame.Rect.colliderect`: strict overlap on both axes (zero-size
rectangles never collide). -/
def colliderect (a b : PyRect) : Bool :=
  decide (a.width ≠ 0 ∧ a.height ≠ 0 ∧ b.width ≠ 0 ∧ b.height ≠ 0 ∧
    a.x < b.x + b.width ∧ a.y < b.y + b.height ∧
    b.x < a.x + a.width ∧ b.y < a.y + a.height)

/-- The physics fields of an `engine.py SpaceObject` relevant to
`GameEngine.update` (the patrol fields are carried separately, see
`PatrolData`). -/
structure EngineShip where
  x : ℚ
  y : ℚ
  vx : ℚ
  vy : ℚ
  angle : ℚ
  hp : ℤ
deriving DecidableEq, Repr

/-- `engine.py SpaceObject.update_position` with the default world size
2000×2000: friction, per-axis speed clamp (8 for the player, 3 for
enemies), integration, world-bounds clamp. -/
def update_position (is_enemy : Bool) (s : EngineShip) : EngineShip :=
  let max_speed : ℚ := if is_enemy then 3 else 8
  let vx := s.vx * (99 / 100)
  let vy := s.vy * (99 / 100)
  let vx := max (-max_speed) (min vx max_speed)
  let vy := max (-max_speed) (min vy max_speed)
  let x := s.x + vx
  let y := s.y + vy
  { s with
    x := max 0 (min x 2000)
    y := max 0 (min y 2000)
    vx := vx
    vy := vy }

/-- The 20×20 body box `pygame.Rect(o.x - 10, o.y - 10, 20, 20)` used for
ships in `engine.py`. -/
def ship_rect_of (x y : ℚ) : PyRect :=
  { x := py_int (x - 10), y := py_int (y - 10), width := 20, height := 20 }

/-- `engine.py SpaceObject.check_wall_collision`: the body box is computed
once from the entry position; the walls plus the other live ships' boxes
are then scanned sequentially, each overlap snapping the (live) position
per-axis and zeroing the offending velocity component. -/
def check_wall_collision (s : EngineShip) (walls : List PyRect)
    (others : List EngineShip) : EngineShip :=
  let ship_rect := ship_rect_of s.x s.y
  let obstacles := walls ++ others.map fun o => ship_rect_of o.x o.y
  obstacles.foldl
    (fun s wall =>
      if colliderect ship_rect wall then
        let s :=
          if s.x < wall.x then { s with x := wall.x - 10, vx := 0 }
          else if s.x > wall.x + wall.width then
            { s with x := wall.x + wall.width + 10, vx := 0 }
          else s
        if s.y < wall.y then { s with y := wall.y - 10, vy := 0 }
        else if s.y > wall.y + wall.height then
          { s with y := wall.y + wall.height + 10, vy := 0 }
        else s
      else s)
    s

/-- A freshly spawned enemy (`SpaceObject(x, y, angle=randint(0,360),
hp=100, ...)`); the position and angle draws are oracle inputs. -/
def spawn_enemy (p : ℚ × ℚ × ℚ) : EngineShip :=
  { x := p.1, y := p.2.1, vx := 0, vy := 0, angle := p.2.2, hp := 100 }

/-- One iteration of the ship loop of `GameEngine.update` (lines 206-216)
for the ship that had index `i` in the pre-loop copy of the list.  `live`
is the engine's (identity-keyed) mutable ship list, `ns` the `new_ships`
accumulator, and `spawns` the two position/angle draws used if the enemy
dies. -/
def ship_loop_step (walls : List PyRect) (spawns : (ℚ × ℚ × ℚ) × (ℚ × ℚ × ℚ))
    (acc : List (ℕ × EngineShip) × List EngineShip) (i : ℕ) :
    List (ℕ × EngineShip) × List EngineShip :=
  let (live, ns) := acc
  match live.lookup i with
  | none => acc
  | some s =>
    let is_enemy := i = 1
    let s1 := update_position is_enemy s
    let live1 := live.map fun p => if p.1 = i then (p.1, s1) else p
    let others := (live1.filter fun p => p.1 ≠ i).map Prod.snd
    let s2 := check_wall_collision s1 walls others
    let live2 := live1.map fun p => if p.1 = i then (p.1, s2) else p
    if s2.hp ≤ 0 then
      (live2.filter fun p => p.1 ≠ i,
       if is_enemy then ns ++ [spawn_enemy spawns.1, spawn_enemy spawns.2] else ns)
    else (live2, ns)

/-- The ship phase of `GameEngine.update` (lines 205-218): iterate over an
indexed copy of the ship list, update physics, drop dead ships from the
live list (spawning two fresh enemies when the dead ship's copy-index was
1), then extend with the spawns. -/
def ship_phase (walls : List PyRect) (spawns : (ℚ × ℚ × ℚ) × (ℚ × ℚ × ℚ))
    (ships : List EngineShip) : List EngineShip :=
  let res := (List.range ships.length).foldl (ship_loop_step walls spawns)
    (ships.enum, [])
  res.1.map Prod.snd ++ res.2

/-- The physics fields of an `engine.py Bullet` (its velocity was computed
from `cos`/`sin` at creation; here it is carried as state). -/
structure EngineBullet where
  x : ℚ
  y : ℚ
  angle : ℚ
  vx : ℚ
  vy : ℚ
  lifespan : ℤ
  owner : ℤ
deriving DecidableEq, Repr

/-- `engine.py Bullet.update`: move and age the bullet. -/
def bullet_update (b : EngineBullet) : EngineBullet :=
  { b with x := b.x + b.vx, y := b.y + b.vy, lifespan := b.lifespan - 1 }

/-- `engine.py Bullet.is_offscreen` with world size 2000×2000. -/
def bullet_is_offscreen (b : EngineBullet) : Bool :=
  decide (¬(0 ≤ b.x ∧ b.x ≤ 2000 ∧ 0 ≤ b.y ∧ b.y ≤ 2000) ∨ b.lifespan ≤ 0)

/-- `engine.py GameEngine._collides`: `math.hypot(bx - sx, by - sy) < 15`,
represented squared (`< 225`). -/
def bullet_collides (b : EngineBullet) (s : EngineShip) : Bool :=
  decide ((b.x - s.x) ^ 2 + (b.y - s.y) ^ 2 < 225)

/-- The 6×6 bullet box `pygame.Rect(bullet.x - 3, bullet.y - 3, 6, 6)`. -/
def bullet_rect_of (b : EngineBullet) : PyRect :=
  { x := py_int (b.x - 3), y := py_int (b.y - 3), width := 6, height := 6 }

/-- One iteration of the per-bullet ship loop of `GameEngine.update`
(lines 236-242): a non-owner ship within the hit radius takes 10 damage and
scores 10 points for the player when its hp drops to 0 or below *and* its
index is 1. -/
def bullet_ship_step (b : EngineBullet) (acc : List EngineShip × ℤ × Bool)
    (p : ℕ × EngineShip) : List EngineShip × ℤ × Bool :=
  let (done, score, hit) := acc
  let (i, ship) := p
  if (i : ℤ) ≠ b.owner ∧ bullet_collides b ship then
    let ship' := { ship with hp := ship.hp - 10 }
    (done ++ [ship'], if ship'.hp ≤ 0 ∧ i = 1 then score + 10 else score, true)
  else (done ++ [ship], score, hit)

/-- The per-bullet ship loop of `GameEngine.update` over the current ship
list; returns the damaged ships, the updated player score and whether the
bullet hit any ship. -/
def bullet_ship_loop (b : EngineBullet) (ships : List EngineShip) (score : ℤ) :
    List EngineShip × ℤ × Bool :=
  ships.enum.foldl (bullet_ship_step b) ([], score, false)

/-- The bullet phase of `GameEngine.update` (lines 221-248): move every
bullet, then for each bullet check walls and ships (both checks always run;
ship damage and scoring happen even for wall-hit bullets), keep bullets that
hit nothing and still live, and finally drop offscreen ones. -/
def bullets_phase (walls : List PyRect) (bullets : List EngineBullet)
    (ships : List EngineShip) (score : ℤ) :
    List EngineBullet × List EngineShip × ℤ :=
  let moved := bullets.map bullet_update
  let res := moved.foldl
    (fun (acc : List EngineBullet × List EngineShip × ℤ) b =>
      let (kept, ships, score) := acc
      let wall_hit := walls.any fun wall => colliderect (bullet_rect_of b) wall
      let shipres := bullet_ship_loop b ships score
      let hit := wall_hit || shipres.2.2
      (if ¬hit ∧ b.lifespan > 0 then kept ++ [b] else kept, shipres.1, shipres.2.1))
    ([], ships, score)
  (res.1.filter fun b => !bullet_is_offscreen b, res.2.1, res.2.2)

/-- `engine.py GameEngine.update` (minus the trailing best-effort network
publish, which has no effect on the engine state): the ship phase followed
by the bullet phase.  Returns the new ships, bullets and player score. -/
def engine_update (walls : List PyRect) (spawns : (ℚ × ℚ × ℚ) × (ℚ × ℚ × ℚ))
    (ships : List EngineShip) (bullets : List EngineBullet) (score : ℤ) :
    List EngineShip × List EngineBullet × ℤ :=
  let ships1 := ship_phase walls spawns ships
  let res := bullets_phase walls bullets ships1 score
  (res.2.1, res.1, res.2.2)

/-- The squared distance from `(x, y)` to the first-edge intersection that
`line_intersects_rect` reports for one wall (`none` when the primitive finds
no intersection).  This is exactly the per-wall value `check_laser` folds
over. -/
def wall_hit_dist_sq (x y ex ey : ℚ) (w : Rect) : Option ℚ :=
  (line_intersects_rect x y ex ey w).map fun p => dist_sq x y p.1 p.2

/-- The per-wall first-edge squared distances that lie strictly inside the
laser range (`50` units, squared `2500`). -/
def laser_candidates (x y ex ey : ℚ) (walls : List Rect) : List ℚ :=
  (walls.filterMap (wall_hit_dist_sq x y ex ey)).filter fun d => d < 2500

/-- Feeding a timed sequence of position samples to
`_update_stuck_detection` (each entry is `(sample time, position)`). -/
def stuck_run (samples : List (ℚ × ℚ × ℚ)) (sd : StuckDetection) : StuckDetection :=
  samples.foldl (fun sd s => update_stuck_detection s.1 (some (s.2.1, s.2.2)) sd) sd

/-- Feeding a sequence of `decide_from_sensors` calls (each entry is
`(call time, random draws, sensor dict)`) to an agent, tracking only the
evolving state. -/
def agent_run (calls : List (ℚ × RandOracle × SensorData)) (st : AgentState) :
    AgentState :=
  calls.foldl (fun st c => (decide_from_sensors c.1 c.2.1 (some c.2.2) st).2) st

/-- `index_one_dead ships` iff the ship list has an entry at index 1 and its
hp is 0 or below (the "enemy died" condition of `GameEngine.update`). -/
def index_one_dead (ships : List EngineShip) : Bool :=
  match ships.get? 1 with
  | some s => decide (s.hp ≤ 0)
  | none => false

/-- `bullet_kills_index_one b ships` iff the ship at index 1 exists, is not
the bullet's owner, is within the hit radius and drops to hp ≤ 0 from the
10 damage — the exact condition under which the per-bullet ship loop of
`GameEngine.update` awards the 10-point kill bonus. -/
def bullet_kills_index_one (b : EngineBullet) (ships : List EngineShip) : Bool :=
  match ships.get? 1 with
  | some s => decide ((1 : ℤ) ≠ b.owner) && bullet_collides b s && decide (s.hp - 10 ≤ 0)
  | none => false

/-- The `new_ships` contribution of the ship loop when it processes the
copy-indices `k, k+1, …` over the remaining ships `tail`: two fresh enemies
exactly when copy-index 1 is still to be processed and its ship is dead. -/
def spawn_extra (spawns : (ℚ × ℚ × ℚ) × (ℚ × ℚ × ℚ)) (k : ℕ)
    (tail : List EngineShip) : List EngineShip :=
  if k ≤ 1 then
    match tail.get? (1 - k) with
    | some s =>
      if s.hp ≤ 0 then [spawn_enemy spawns.1, spawn_enemy spawns.2] else []
    | none => []
  else []

/-- A concrete trig interpretation used to instantiate parametric
definitions in closed statements. -/
def trig_zero : TrigOracle :=
  { cos_deg := fun _ => 0, sin_deg := fun _ => 0, atan2_deg := fun _ _ => 0 }

/-- Fixed random draws used to instantiate oracle arguments in closed
statements. -/
def rnd_zero : RandOracle :=
  { choice_sign := 1, explore_rotation := 0, ra_rotate := 0, ra_thrust := 1 / 10,
    ra_shoot := false }

/-- Fixed legacy-path random draws for closed statements. -/
def lrnd_zero : LegacyRandOracle :=
  { draw := false, rotate := 0, thrust := 0, shoot := false }

/-! ## Theorems -/

/-- **C8, counterexample.**  The claim says the state query returns exactly
`{ships: [], bullets: [], coins: [], score: [0, 0]}` before any publish;
but `server.py` initializes the cache with `"score": []`, so the returned
default differs from the spec's empty-shaped value (its `score` is `[]`,
not `[0, 0]`). -/
theorem get_game_state_default_ne_spec :
    get_game_state initial_game_state ≠ empty_shaped_default_spec := by
  decide

/-- **C8, amended.**  Before any state has been published, `/game_state`
returns `{ships: [], bullets: [], coins: [], score: []}` — all four fields
empty, the `score` being the empty list rather than `[0, 0]`. -/
theorem get_game_state_default :
    get_game_state initial_game_state =
      { ships := [], bullets := [], coins := [], score := [] } := rfl

/-- **C7, counterexample.**  The claim says the segment-segment intersection
test "treats touching endpoints as non-intersecting … returns false for such
degenerate contact".  The segments `(0,0)-(1,0)` and `(1,0)-(1,1)` touch at
the shared endpoint `(1,0)`: the server-side test (`server.py
line_intersects_line`, non-strict `0 <= ua <= 1`) returns `true`, and even
the agent-side strict `ccw` test returns `true` on this contact. -/
theorem touching_endpoints_reported_intersecting :
    line_intersects_line 0 0 1 0 1 0 1 1 = true ∧
      agent_line_intersects_line 0 0 1 0 1 0 1 1 = true := by
  constructor
  · norm_num [line_intersects_line]
  · norm_num [agent_line_intersects_line, ccw]

/-- **C7, amended.**  The two implementations disagree with the claim and
with each other on degenerate contact: the server-side test uses non-strict
parameter bounds and reports *every* endpoint-touching, non-parallel pair as
intersecting (shared endpoint `(x2,y2)` gives `ua = 1`, `ub = 0`); the
agent-side strict orientation-sign test returns `false` only for some
degenerate contacts — e.g. collinear touching segments, or contact on the
clockwise side — and `true` for others. -/
theorem segment_test_degenerate_contact (x1 y1 x2 y2 x4 y4 : ℚ)
    (hden : (y4 - y2) * (x2 - x1) - (x4 - x2) * (y2 - y1) ≠ 0) :
    line_intersects_line x1 y1 x2 y2 x2 y2 x4 y4 = true ∧
      agent_line_intersects_line 0 0 1 0 1 0 2 0 = false ∧
      agent_line_intersects_line 0 0 1 0 1 0 1 (-1) = false := by
  refine ⟨?_, by norm_num [agent_line_intersects_line, ccw],
    by norm_num [agent_line_intersects_line, ccw]⟩
  unfold line_intersects_line
  rw [if_neg hden]
  have hua : ((x4 - x2) * (y1 - y2) - (y4 - y2) * (x1 - x2)) /
      ((y4 - y2) * (x2 - x1) - (x4 - x2) * (y2 - y1)) = 1 := by
    rw [div_eq_one_iff_eq hden]; ring
  have hub : ((x2 - x1) * (y1 - y2) - (y2 - y1) * (x1 - x2)) /
      ((y4 - y2) * (x2 - x1) - (x4 - x2) * (y2 - y1)) = 0 := by
    rw [div_eq_zero_iff]; left; ring
  rw [hua, hub]
  norm_num

/-- **C7, witness** for `segment_test_degenerate_contact`: the concrete
touching pair `(0,0)-(1,0)` and `(1,0)-(1,1)` (denominator `1 ≠ 0`). -/
theorem segment_test_degenerate_contact_witness :
    line_intersects_line 0 0 1 0 1 0 1 1 = true ∧
      agent_line_intersects_line 0 0 1 0 1 0 2 0 = false ∧
      agent_line_intersects_line 0 0 1 0 1 0 1 (-1) = false :=
  segment_test_degenerate_contact 0 0 1 0 1 1 (by norm_num)

/-- **C2, code bug.**  `is_visible`'s bounding-box pre-filter skips any wall
whose *center* is outside the segment's padded box on both axes — even when
the wall itself crosses the segment.  With sensor `(0,0)`, candidate
`(100,0)` (distance 100, so the `< 30` fast path does not apply) and the
wall `{x:90, y:-1, width:1000, height:1000}` (center `(590, 499)`), the
wall's left edge crosses the segment at `(90, 0)`, yet `is_visible` returns
`true` because the pre-filter skips the wall — contradicting both the claim
and the source's own "for efficiency" intent for the filter. -/
theorem is_visible_prefilter_skips_blocking_wall :
    is_visible 0 0 100 0 [⟨90, -1, 1000, 1000⟩] = true ∧
      line_intersects_rect 0 0 100 0 ⟨90, -1, 1000, 1000⟩ = some (90, 0) ∧
      ¬ dist_sq 0 0 100 0 < 900 := by
  refine ⟨?_, ?_, ?_⟩
  · norm_num [is_visible, dist_sq]
  · norm_num [line_intersects_rect, rect_edges, first_edge_hit,
      line_intersects_line, get_intersection_point]
  · norm_num [dist_sq]

/-- **C6.**  Starting in FORWARD with patrol timer below 180, if every tick's
look-ahead probe reports no wall and the random FORWARD → TURNING draw never
succeeds, then over (up to) 1000 consecutive `patrol_movement` steps the
patrol state never leaves FORWARD. -/
theorem patrol_forward_stays (ticks : List PatrolTick) (e : PatrolData)
    (hstate : e.patrol_state = .forward) (_htimer : e.patrol_timer < 180)
    (hticks : ∀ t ∈ ticks, t.wall_ahead = false ∧ t.transition_draw = false)
    (_hlen : ticks.length ≤ 1000) :
    (patrol_run ticks e).patrol_state = .forward := by
  suffices h : ∀ (l : List PatrolTick) (e' : PatrolData),
      e'.patrol_state = .forward →
      (∀ t ∈ l, t.wall_ahead = false ∧ t.transition_draw = false) →
      (patrol_run l e').patrol_state = .forward from h ticks e hstate hticks
  intro l
  induction l with
  | nil => intro e' h1 _; simpa [patrol_run] using h1
  | cons t ts ih =>
    intro e' h1 h2
    obtain ⟨hw, hd⟩ := h2 t (List.mem_cons_self t ts)
    have hstep : (patrol_movement t e').1.patrol_state = .forward := by
      simp only [patrol_movement, h1, hw, hd]
      simp
    show (patrol_run ts (patrol_movement t e').1).patrol_state = .forward
    exact ih (patrol_movement t e').1 hstep
      fun t' ht' => h2 t' (List.mem_cons_of_mem t ht')

/-- **C6, witness**: 1000 ticks with no wall ahead and a failing transition
draw, from a fresh FORWARD state. -/
theorem patrol_forward_stays_witness :
    (patrol_run (List.replicate 1000 ⟨false, false, 1, 70⟩)
        ⟨.forward, 0, 0, 1⟩).patrol_state = .forward :=
  patrol_forward_stays _ _ rfl (by norm_num)
    (fun t ht => by rw [List.eq_of_mem_replicate ht]; exact ⟨rfl, rfl⟩)
    (by rw [List.length_replicate])

/-- When the sensor argument carries no `position` attribute (the dict
case), `_update_stuck_detection` touches only the timestamps. -/
theorem update_stuck_detection_none (now : ℚ) (sd : StuckDetection) :
    (update_stuck_detection now none sd).is_stuck = sd.is_stuck ∧
      (update_stuck_detection now none sd).stuck_count = sd.stuck_count ∧
      (update_stuck_detection now none sd).escape_direction = sd.escape_direction := by
  cases h : sd.position <;> simp [update_stuck_detection, h]

/-- The enemy-engagement branch only rewrites the target memory; the stuck
state is untouched. -/
theorem enemy_engagement_branch_stuck (now : ℚ) (o : RadarObj) (st : AgentState) :
    (enemy_engagement_branch now o st).2.stuck_detection = st.stuck_detection := by
  simp only [enemy_engagement_branch]
  split_ifs <;> rfl

/-- The coin-collection branch only rewrites the target memory; the stuck
state is untouched. -/
theorem coin_collection_branch_stuck (now : ℚ) (o : RadarObj) (st : AgentState) :
    (coin_collection_branch now o st).2.stuck_detection = st.stuck_detection := rfl

/-- On a dict-shaped sensor argument, one `decide_from_sensors` call keeps
an un-stuck agent un-stuck: the flag stays `false` and the counter stays
`0`. -/
theorem decide_from_sensors_preserves_unstuck (now : ℚ) (rnd : RandOracle)
    (sd : SensorData) (st : AgentState) (hattr : sd.position_attr = none)
    (hflag : st.stuck_detection.is_stuck = false)
    (hcount : st.stuck_detection.stuck_count = 0) :
    ((decide_from_sensors now rnd (some sd) st).2).stuck_detection.is_stuck = false ∧
      ((decide_from_sensors now rnd (some sd) st).2).stuck_detection.stuck_count = 0 := by
  simp only [decide_from_sensors, hattr]
  set st1 := if now - st.stuck_detection.check_time > 1 then
      { st with stuck_detection :=
          update_stuck_detection now none st.stuck_detection } else st with hst1
  have h1 : st1.stuck_detection.is_stuck = false ∧
      st1.stuck_detection.stuck_count = 0 := by
    rw [hst1]
    split_ifs with h
    · exact ⟨(update_stuck_detection_none now _).1.trans hflag,
        ((update_stuck_detection_none now _).2.1).trans hcount⟩
    · exact ⟨hflag, hcount⟩
  rw [h1.1]
  simp only [Bool.false_eq_true, if_false]
  by_cases hl1 : sd.laser_hit = true ∧ sd.laser_distance.getD 100 < 50
  · rw [if_pos hl1]
    exact h1
  · rw [if_neg hl1]
    by_cases hl2 : sd.laser_hit = true ∧ sd.laser_distance.getD 100 < 30
    · rw [if_pos hl2]
      exact h1
    · rw [if_neg hl2]
      cases h : sort_by_distance (sd.radar_objects.filter fun o => o.type = "enemy") with
      | cons a l =>
        simp only [h, enemy_engagement_branch_stuck]
        exact h1
      | nil =>
        simp only [h]
        cases h2 : sort_by_distance (sd.radar_objects.filter fun o => o.type = "coin") with
        | cons a l =>
          simp only [h2, coin_collection_branch_stuck]
          exact h1
        | nil =>
          simp only [h2]
          split_ifs <;> exact h1

/-- **C9.**  Feeding `decide_from_sensors` any sequence of plain
dict-shaped sensor payloads (the shape `/sense` returns: no `position`
attribute) keeps the stuck detector at `is_stuck = false`,
`stuck_count = 0` forever, so the stuck-escape command branch is
unreachable on this input shape. -/
theorem stuck_branch_unreachable_on_dicts (t0 : ℚ)
    (calls : List (ℚ × RandOracle × SensorData))
    (hcalls : ∀ c ∈ calls, c.2.2.position_attr = none) :
    (agent_run calls (init_agent_state t0)).stuck_detection.is_stuck = false ∧
      (agent_run calls (init_agent_state t0)).stuck_detection.stuck_count = 0 := by
  suffices h : ∀ (l : List (ℚ × RandOracle × SensorData)) (st : AgentState),
      (∀ c ∈ l, c.2.2.position_attr = none) →
      st.stuck_detection.is_stuck = false → st.stuck_detection.stuck_count = 0 →
      (agent_run l st).stuck_detection.is_stuck = false ∧
        (agent_run l st).stuck_detection.stuck_count = 0 from
    h calls (init_agent_state t0) hcalls rfl rfl
  intro l
  induction l with
  | nil => intro st _ h1 h2; exact ⟨h1, h2⟩
  | cons c cs ih =>
    intro st hmem h1 h2
    have hc := decide_from_sensors_preserves_unstuck c.1 c.2.1 c.2.2 st
      (hmem c (List.mem_cons_self c cs)) h1 h2
    show (agent_run cs (decide_from_sensors c.1 c.2.1 (some c.2.2) st).2).stuck_detection.is_stuck
        = false ∧ _
    exact ih _ (fun c' hc' => hmem c' (List.mem_cons_of_mem c hc')) hc.1 hc.2

/-- **C9, witness**: two dict-shaped calls (the second one late enough to
trigger the stuck-detection refresh). -/
theorem stuck_branch_unreachable_on_dicts_witness :
    (agent_run [(2, rnd_zero, ⟨false, none, [], none⟩),
        (4, rnd_zero, ⟨false, none, [], none⟩)]
      (init_agent_state 0)).stuck_detection.is_stuck = false ∧
    (agent_run [(2, rnd_zero, ⟨false, none, [], none⟩),
        (4, rnd_zero, ⟨false, none, [], none⟩)]
      (init_agent_state 0)).stuck_detection.stuck_count = 0 :=
  stuck_branch_unreachable_on_dicts 0 _
    (fun c hc => by fin_cases hc <;> rfl)

/-- One `_update_stuck_detection` step preserves the invariant "the stuck
flag implies a counter of at least 3". -/
theorem update_stuck_detection_invariant (now : ℚ) (cur : Option (ℚ × ℚ))
    (sd : StuckDetection) (h : sd.is_stuck = true → 3 ≤ sd.stuck_count) :
    (update_stuck_detection now cur sd).is_stuck = true →
      3 ≤ (update_stuck_detection now cur sd).stuck_count := by
  cases hp : sd.position <;> cases cur <;>
    simp only [update_stuck_detection, hp] <;> try exact h
  split_ifs with h1 h2
  · intro _
    show 3 ≤ sd.stuck_count + 1
    omega
  · intro hf
    have h3 := h hf
    show 3 ≤ sd.stuck_count + 1
    omega
  · intro hf
    exact absurd hf (by simp)

/-- Every state reachable from the freshly initialized stuck detector
satisfies the flag-implies-counter-3 invariant. -/
theorem stuck_run_invariant (t0 : ℚ) (samples : List (ℚ × ℚ × ℚ)) :
    (stuck_run samples (init_stuck_detection t0)).is_stuck = true →
      3 ≤ (stuck_run samples (init_stuck_detection t0)).stuck_count := by
  suffices h : ∀ (l : List (ℚ × ℚ × ℚ)) (sd : StuckDetection),
      (sd.is_stuck = true → 3 ≤ sd.stuck_count) →
      (stuck_run l sd).is_stuck = true → 3 ≤ (stuck_run l sd).stuck_count from
    h samples (init_stuck_detection t0) (by intro hf; exact absurd hf (by simp [init_stuck_detection]))
  intro l
  induction l with
  | nil => intro sd h; exact h
  | cons s ss ih =>
    intro sd h
    exact ih _ (update_stuck_detection_invariant s.1 (some (s.2.1, s.2.2)) sd h)

/-- **C4.**  After any warm-up sequence from the fresh detector, a sample at
squared displacement `< 25` (i.e. below 5 units) increments the counter and
leaves the flag set *exactly* when the counter has reached 3; a sample at
squared displacement `≥ 25` clears the flag and decrements the counter,
floored at 0 (never zeroed). -/
theorem stuck_detector_spec (t0 : ℚ) (samples : List (ℚ × ℚ × ℚ)) (now : ℚ)
    (p prev : ℚ × ℚ)
    (hprev : (stuck_run samples (init_stuck_detection t0)).position = some prev) :
    ((p.1 - prev.1) * (p.1 - prev.1) + (p.2 - prev.2) * (p.2 - prev.2) < 25 →
      (update_stuck_detection now (some p)
          (stuck_run samples (init_stuck_detection t0))).stuck_count =
        (stuck_run samples (init_stuck_detection t0)).stuck_count + 1 ∧
      ((update_stuck_detection now (some p)
          (stuck_run samples (init_stuck_detection t0))).is_stuck = true ↔
        3 ≤ (update_stuck_detection now (some p)
          (stuck_run samples (init_stuck_detection t0))).stuck_count)) ∧
    (¬ (p.1 - prev.1) * (p.1 - prev.1) + (p.2 - prev.2) * (p.2 - prev.2) < 25 →
      (update_stuck_detection now (some p)
          (stuck_run samples (init_stuck_detection t0))).is_stuck = false ∧
      (update_stuck_detection now (some p)
          (stuck_run samples (init_stuck_detection t0))).stuck_count =
        max 0 ((stuck_run samples (init_stuck_detection t0)).stuck_count - 1)) := by
  have hinv := stuck_run_invariant t0 samples
  set sd := stuck_run samples (init_stuck_detection t0) with hsd
  constructor
  · intro hlow
    simp only [update_stuck_detection, hprev]
    rw [if_pos hlow]
    refine ⟨rfl, ?_⟩
    by_cases h3 : 3 ≤ sd.stuck_count + 1
    · rw [if_pos h3]
      show (true = true ↔ 3 ≤ sd.stuck_count + 1)
      simp [h3]
    · rw [if_neg h3]
      show (sd.is_stuck = true ↔ 3 ≤ sd.stuck_count + 1)
      constructor
      · intro hf
        have := hinv hf
        omega
      · intro hc
        exact absurd hc h3
  · intro hhigh
    simp only [update_stuck_detection, hprev]
    rw [if_neg hhigh]
    exact ⟨rfl, rfl⟩

/-- **C4, witness**: initialize at `(0,0)`, then three consecutive samples
1 unit apart (squared displacement 1 < 25 each) set the flag; a fourth
sample 7 units away (squared displacement 49) clears it and decrements. -/
theorem stuck_detector_spec_witness :
    (update_stuck_detection 5 (some (10, 0))
        (stuck_run [(1, 0, 0), (2, 1, 0), (3, 2, 0), (4, 3, 0)]
          (init_stuck_detection 0))).is_stuck = false ∧
    (update_stuck_detection 5 (some (10, 0))
        (stuck_run [(1, 0, 0), (2, 1, 0), (3, 2, 0), (4, 3, 0)]
          (init_stuck_detection 0))).stuck_count =
      max 0 ((stuck_run [(1, 0, 0), (2, 1, 0), (3, 2, 0), (4, 3, 0)]
          (init_stuck_detection 0)).stuck_count - 1) :=
  (stuck_detector_spec 0 [(1, 0, 0), (2, 1, 0), (3, 2, 0), (4, 3, 0)] 5 (10, 0) (3, 0)
      (by norm_num [stuck_run, update_stuck_detection, init_stuck_detection])).2
    (by norm_num)

/-- Stable distance-insertion never produces the empty list. -/
theorem insert_by_distance_ne_nil (a : RadarObj) (l : List RadarObj) :
    insert_by_distance a l ≠ [] := by
  cases l with
  | nil => simp [insert_by_distance]
  | cons b bs =>
    simp only [insert_by_distance]
    split_ifs <;> simp

/-- Sorting a nonempty list of radar objects yields a nonempty list. -/
theorem sort_by_distance_ne_nil (l : List RadarObj) (h : l ≠ []) :
    sort_by_distance l ≠ [] := by
  cases l with
  | nil => exact absurd rfl h
  | cons a t => exact insert_by_distance_ne_nil a (sort_by_distance t)

/-- **C3.**  When the sensor reading contains at least one enemy and at
least one coin and no earlier rule fires (the agent is not stuck after the
stuck-detection refresh `st1`, and the laser does not report a wall within
50), `decide_from_sensors` returns exactly the output of the
enemy-engagement branch on the nearest enemy — never the coin-collection
branch — regardless of the coins' distances. -/
theorem enemies_preempt_coins (now : ℚ) (rnd : RandOracle) (sd : SensorData)
    (st st1 : AgentState)
    (hst1 : st1 = if now - st.stuck_detection.check_time > 1 then
        { st with stuck_detection :=
            update_stuck_detection now sd.position_attr st.stuck_detection }
      else st)
    (hstuck : st1.stuck_detection.is_stuck = false)
    (hlaser : ¬(sd.laser_hit = true ∧ sd.laser_distance.getD 100 < 50))
    (henemies : sd.radar_objects.filter (fun o => o.type = "enemy") ≠ [])
    (_hcoins : sd.radar_objects.filter (fun o => o.type = "coin") ≠ []) :
    decide_from_sensors now rnd (some sd) st =
      enemy_engagement_branch now
        (sort_by_distance (sd.radar_objects.filter fun o => o.type = "enemy")).headI
        st1 := by
  have h30 : ¬(sd.laser_hit = true ∧ sd.laser_distance.getD 100 < 30) := by
    rintro ⟨ha, hb⟩
    exact hlaser ⟨ha, by linarith⟩
  simp only [decide_from_sensors, ← hst1]
  rw [hstuck]
  simp only [Bool.false_eq_true, if_false]
  rw [if_neg hlaser, if_neg h30]
  cases h : sort_by_distance (sd.radar_objects.filter fun o => o.type = "enemy") with
  | nil => exact absurd h (sort_by_distance_ne_nil _ henemies)
  | cons a l => simp [h]

/-- **C3, witness**: one visible enemy at squared distance 1600 (40 units)
and one visible coin at squared distance 900 (30 units, closer); the result
is the enemy-engagement output. -/
theorem enemies_preempt_coins_witness :
    decide_from_sensors (1 / 2) rnd_zero
        (some ⟨false, none, [⟨"enemy", 1600, 0⟩, ⟨"coin", 900, 0⟩], none⟩)
        (init_agent_state 0) =
      enemy_engagement_branch (1 / 2)
        (sort_by_distance
          (List.filter (fun o => o.type = "enemy")
            [⟨"enemy", 1600, 0⟩, ⟨"coin", 900, 0⟩])).headI
        (init_agent_state 0) :=
  enemies_preempt_coins (1 / 2) rnd_zero _ (init_agent_state 0) (init_agent_state 0)
    (by norm_num [init_agent_state, init_stuck_detection])
    rfl
    (by norm_num)
    (by simp)
    (by simp)

/-- **C5.**  Neither decision entry point ever propagates an error: the
`/decide/` endpoint and `DummyAgent.decide` each return either the
successful result of their `try:`-body or, whenever the body raises, the
neutral command `{rotate: 0, thrust: 0, shoot: false}` with the agent state
untouched.  The last two conjuncts evaluate both entry points on concrete
malformed inputs (a game-data dict with no `"ships"` key): the neutral
command is returned. -/
theorem decide_error_fallback :
    (∀ (trig : TrigOracle) (now : ℚ) (rnd : RandOracle) (g : GameDataDict)
        (gs : ServerGameState) (st : AgentState),
      (decide_endpoint trig now rnd g gs st = (neutral_command, st) ∧
          decide_endpoint_body trig now rnd g gs st = .error ()) ∨
        ∃ r, decide_endpoint_body trig now rnd g gs st = .ok r ∧
          decide_endpoint trig now rnd g gs st = r) ∧
    (∀ (i : ℕ) (now : ℚ) (rnd : RandOracle) (lrnd : LegacyRandOracle)
        (arg : AgentDecideArg) (st : AgentState),
      (agent_decide i now rnd lrnd arg st = (neutral_command, st) ∧
          agent_decide_body i now rnd lrnd arg st = .error ()) ∨
        ∃ r, agent_decide_body i now rnd lrnd arg st = .ok r ∧
          agent_decide i now rnd lrnd arg st = r) ∧
    decide_endpoint trig_zero 0 rnd_zero ⟨none, none⟩ initial_game_state
        (init_agent_state 0) = (neutral_command, init_agent_state 0) ∧
    agent_decide 0 0 rnd_zero lrnd_zero (.world_dict none) (init_agent_state 0) =
      (neutral_command, init_agent_state 0) := by
  refine ⟨?_, ?_, rfl, rfl⟩
  · intro trig now rnd g gs st
    cases h : decide_endpoint_body trig now rnd g gs st with
    | error e =>
      cases e
      exact Or.inl ⟨by simp [decide_endpoint, h], rfl⟩
    | ok r =>
      exact Or.inr ⟨r, rfl, by simp [decide_endpoint, h]⟩
  · intro i now rnd lrnd arg st
    cases h : agent_decide_body i now rnd lrnd arg st with
    | error e =>
      cases e
      exact Or.inl ⟨by simp [agent_decide, h], rfl⟩
    | ok r =>
      exact Or.inr ⟨r, rfl, by simp [agent_decide, h]⟩

/-- **C1, counterexample.**  Ship at `(0,0)`, heading 0° (cosine 1, sine 0;
ray to `(50,0)`), a single wall `{x:10, y:-5, width:20, height:10}`.  The
ray crosses the wall's left edge `(10,5)-(10,-5)` at `(10,0)` — squared
distance 100 — but `check_laser` reports squared distance 900 (the wall's
*right* edge, which `line_intersects_rect` reaches first in its fixed edge
order).  So the reported distance is *not* the nearest ray–wall
intersection, refuting the claim's equality. -/
theorem check_laser_not_nearest_overall :
    check_laser 0 0 1 0 [⟨10, -5, 20, 10⟩] = (true, some 900) ∧
      ((10 : ℚ), (5 : ℚ), (10 : ℚ), (-5 : ℚ)) ∈ rect_edges ⟨10, -5, 20, 10⟩ ∧
      line_intersects_line 0 0 50 0 10 5 10 (-5) = true ∧
      get_intersection_point 0 0 50 0 10 5 10 (-5) = some (10, 0) ∧
      dist_sq 0 0 10 0 = 100 ∧ (100 : ℚ) < 900 := by
  refine ⟨?_, ?_, ?_, ?_, ?_, by norm_num⟩
  · norm_num [check_laser, check_laser_step, line_intersects_rect, rect_edges,
      first_edge_hit, line_intersects_line, get_intersection_point, dist_sq]
  · norm_num [rect_edges]
  · norm_num [line_intersects_line]
  · norm_num [get_intersection_point]
  · norm_num [dist_sq]

/-- `laser_candidates` drops a wall the ray's rect primitive misses. -/
theorem laser_candidates_cons_none (x y ex ey : ℚ) (w : Rect) (ws : List Rect)
    (h : wall_hit_dist_sq x y ex ey w = none) :
    laser_candidates x y ex ey (w :: ws) = laser_candidates x y ex ey ws := by
  simp [laser_candidates, List.filterMap_cons, h]

/-- `laser_candidates` keeps a hit wall's first-edge squared distance when
it is inside the 50-unit range. -/
theorem laser_candidates_cons_some (x y ex ey : ℚ) (w : Rect) (ws : List Rect)
    (d : ℚ) (h : wall_hit_dist_sq x y ex ey w = some d) :
    laser_candidates x y ex ey (w :: ws) =
      (if d < 2500 then [d] else []) ++ laser_candidates x y ex ey ws := by
  by_cases hd : d < 2500 <;>
    simp [laser_candidates, List.filterMap_cons, h, List.filter_cons, hd]

/-- The wall-scanning fold of `check_laser` computes the minimum of the
in-range per-wall first-edge squared distances: invariant-preservation over
an arbitrary prefix state. -/
theorem check_laser_fold (x y ex ey : ℚ) (ws : List Rect) :
    ∀ (cands : List ℚ) (acc : ℚ × Option (ℚ × ℚ)),
      (acc.2.isSome = true ↔ cands ≠ []) →
      (acc.2 = none → acc.1 = 2500) →
      (acc.2.isSome = true → acc.1 ∈ cands ∧ acc.1 < 2500 ∧ ∀ d ∈ cands, acc.1 ≤ d) →
      (((ws.foldl (check_laser_step x y ex ey) acc).2.isSome = true ↔
          cands ++ laser_candidates x y ex ey ws ≠ []) ∧
       ((ws.foldl (check_laser_step x y ex ey) acc).2 = none →
          (ws.foldl (check_laser_step x y ex ey) acc).1 = 2500) ∧
       ((ws.foldl (check_laser_step x y ex ey) acc).2.isSome = true →
          (ws.foldl (check_laser_step x y ex ey) acc).1 ∈
              cands ++ laser_candidates x y ex ey ws ∧
            (ws.foldl (check_laser_step x y ex ey) acc).1 < 2500 ∧
            ∀ d ∈ cands ++ laser_candidates x y ex ey ws,
              (ws.foldl (check_laser_step x y ex ey) acc).1 ≤ d)) := by
  induction ws with
  | nil =>
    intro cands acc h1 h2 h3
    simpa [laser_candidates] using ⟨h1, h2, h3⟩
  | cons w ws ih =>
    intro cands acc h1 h2 h3
    have hacc_le : acc.1 ≤ 2500 := by
      cases hs : acc.2 with
      | none => exact le_of_eq (h2 hs)
      | some p => exact le_of_lt (h3 (by simp [hs])).2.1
    cases h : wall_hit_dist_sq x y ex ey w with
    | none =>
      rw [List.foldl_cons, laser_candidates_cons_none x y ex ey w ws h]
      have hlir : line_intersects_rect x y ex ey w = none := by
        have := h
        unfold wall_hit_dist_sq at this
        exact Option.map_eq_none'.mp this
      have hstep : check_laser_step x y ex ey acc w = acc := by
        simp [check_laser_step, hlir]
      rw [hstep]
      exact ih cands acc h1 h2 h3
    | some d =>
      rw [List.foldl_cons, laser_candidates_cons_some x y ex ey w ws d h,
        ← List.append_assoc]
      obtain ⟨pt, hpt, hd⟩ := Option.map_eq_some'.mp (by
        unfold wall_hit_dist_sq at h; exact h)
      have hstep : check_laser_step x y ex ey acc w =
          if d < acc.1 then (d, some pt) else acc := by
        cases pt with
        | mk hx hy => simp only [check_laser_step, hpt, ← hd]
      rw [hstep]
      by_cases hlt : d < acc.1
      · rw [if_pos hlt]
        have hd2500 : d < 2500 := lt_of_lt_of_le hlt hacc_le
        rw [if_pos hd2500]
        refine ih (cands ++ [d]) (d, some pt) (by simp) (by simp) ?_
        intro _
        refine ⟨by simp, hd2500, ?_⟩
        intro e he
        rcases List.mem_append.mp he with he | he
        · have hsome : acc.2.isSome = true := by
            by_contra hn
            have : cands = [] := by
              by_contra hne
              exact hn (h1.mpr hne)
            simp [this] at he
          exact le_of_lt (lt_of_lt_of_le hlt ((h3 hsome).2.2 e he))
        · simp at he
          exact le_of_eq he.symm
      · rw [if_neg hlt]
        by_cases hd2500 : d < 2500
        · rw [if_pos hd2500]
          have hsome : acc.2.isSome = true := by
            by_contra hn
            cases hs : acc.2 with
            | some p => exact hn (by simp [hs])
            | none => exact absurd (lt_of_lt_of_le hd2500 (le_of_eq (h2 hs).symm)) hlt
          refine ih (cands ++ [d]) acc (by simp [hsome]) ?_ ?_
          · intro hnone
            rw [hnone] at hsome
            simp at hsome
          · intro _
            obtain ⟨hm, hlt', hall⟩ := h3 hsome
            refine ⟨List.mem_append_left _ hm, hlt', ?_⟩
            intro e he
            rcases List.mem_append.mp he with he | he
            · exact hall e he
            · simp at he
              rw [he]
              exact le_of_not_lt hlt
        · rw [if_neg hd2500]
          simpa using ih cands acc h1 h2 h3

/-- **C1, amended.**  When the laser reports a hit, the reported (squared)
distance is strictly below the (squared) 50-unit maximum range and equals
the minimum, over all walls, of the distance from the ship to the
intersection returned by the rect primitive for that wall — its *first-edge*
intersection in top/right/bottom/left order, which need not be the nearest
ray–wall intersection.  When no wall has such an in-range first-edge
intersection, the hit flag is false and the distance is `none`. -/
theorem check_laser_reports_min_first_edge (x y c s : ℚ) (walls : List Rect) :
    ((check_laser x y c s walls).1 = true ↔
        laser_candidates x y (x + c * 50) (y + s * 50) walls ≠ []) ∧
    ((check_laser x y c s walls).1 = false → (check_laser x y c s walls).2 = none) ∧
    ((check_laser x y c s walls).1 = true → ∃ m, (check_laser x y c s walls).2 = some m) ∧
    (∀ m, (check_laser x y c s walls).2 = some m →
      m ∈ laser_candidates x y (x + c * 50) (y + s * 50) walls ∧ m < 2500 ∧
        ∀ d ∈ laser_candidates x y (x + c * 50) (y + s * 50) walls, m ≤ d) := by
  obtain ⟨h1, h2, h3⟩ := check_laser_fold x y (x + c * 50) (y + s * 50) walls []
    (2500, none) (by simp) (fun _ => rfl) (by simp)
  set res := walls.foldl (check_laser_step x y (x + c * 50) (y + s * 50)) (2500, none)
    with hres
  have hcl : check_laser x y c s walls =
      (res.2.isSome, if res.2.isSome then some res.1 else none) := rfl
  rw [hcl]
  simp only [List.nil_append] at h1 h3
  refine ⟨by simpa using h1, ?_, ?_, ?_⟩
  · intro hfalse
    simp only at hfalse
    simp [hfalse]
  · intro htrue
    simp only at htrue
    exact ⟨res.1, by simp [htrue]⟩
  · intro m hm
    simp only at hm
    by_cases hsome : res.2.isSome = true
    · rw [if_pos hsome] at hm
      obtain ⟨hmem, hlt, hall⟩ := h3 hsome
      obtain rfl : res.1 = m := by simpa using hm
      exact ⟨hmem, hlt, hall⟩
    · rw [if_neg hsome] at hm
      exact absurd hm (by simp)

/-- **C1, witness** for `check_laser_reports_min_first_edge`: the spec's own
test scene — two walls whose first-edge (right-edge) intersections lie at
25 and 45 units (squared 625 and 2025) along heading 0°; the laser reports
the minimum, 625. -/
theorem check_laser_reports_min_first_edge_witness :
    (625 : ℚ) ∈ laser_candidates 0 0 (0 + 1 * 50) (0 + 0 * 50)
        [⟨20, -5, 5, 10⟩, ⟨40, -5, 5, 10⟩] ∧ (625 : ℚ) < 2500 ∧
      ∀ d ∈ laser_candidates 0 0 (0 + 1 * 50) (0 + 0 * 50)
          [⟨20, -5, 5, 10⟩, ⟨40, -5, 5, 10⟩], (625 : ℚ) ≤ d :=
  (check_laser_reports_min_first_edge 0 0 1 0
      [⟨20, -5, 5, 10⟩, ⟨40, -5, 5, 10⟩]).2.2.2 625
    (by norm_num [check_laser, check_laser_step, line_intersects_rect, rect_edges,
      first_edge_hit, line_intersects_line, get_intersection_point, dist_sq])

/-- Ship-loop iterations with index 2 or higher never change the score. -/
theorem bullet_ship_step_score_high (b : EngineBullet) (l : List EngineShip) :
    ∀ (k : ℕ) (acc : List EngineShip × ℤ × Bool), 2 ≤ k →
      ((l.enumFrom k).foldl (bullet_ship_step b) acc).2.1 = acc.2.1 := by
  induction l with
  | nil => intro k acc _; rfl
  | cons a l ih =>
    intro k acc hk
    rw [List.enumFrom_cons, List.foldl_cons]
    rw [ih (k + 1) _ (by omega)]
    simp only [bullet_ship_step]
    split_ifs with h1 h2
    · omega
    · rfl
    · rfl

/-- The per-bullet ship loop changes the player score exactly when the
index-1 ship is a non-owner hit that drops to hp ≤ 0, and then by exactly
+10; ships at any other index never affect the score. -/
theorem bullet_ship_loop_score (b : EngineBullet) (ships : List EngineShip) (score : ℤ) :
    (bullet_ship_loop b ships score).2.1 =
      score + (if bullet_kills_index_one b ships then 10 else 0) := by
  match ships with
  | [] => simp [bullet_ship_loop, bullet_kills_index_one, List.enum]
  | [a] =>
    have hk : bullet_kills_index_one b [a] = false := rfl
    rw [hk]
    simp only [Bool.false_eq_true, if_false, bullet_ship_loop, List.enum_cons,
      List.enumFrom_nil, List.foldl_cons, List.foldl_nil, bullet_ship_step]
    split_ifs with h1 h2
    · exact h2.2.elim
    · simp
    · simp
  | a :: c :: rest =>
    have hk : bullet_kills_index_one b (a :: c :: rest) =
        (decide ((1 : ℤ) ≠ b.owner) && bullet_collides b c && decide (c.hp - 10 ≤ 0)) :=
      rfl
    rw [hk]
    simp only [bullet_ship_loop, List.enum_cons, List.enumFrom_cons, List.foldl_cons]
    rw [bullet_ship_step_score_high b rest 2 _ (by omega)]
    simp only [bullet_ship_step, Nat.cast_zero, Nat.cast_one]
    split_ifs with h1 h2 h3 h4 h5 h6 h7 h8 <;> simp_all <;> omega

/-- `update_position` never touches hp. -/
theorem update_position_hp (e : Bool) (s : EngineShip) :
    (update_position e s).hp = s.hp := rfl

/-- `check_wall_collision` snaps positions and zeroes velocities but never
touches hp. -/
theorem check_wall_collision_hp (s : EngineShip) (walls : List PyRect)
    (others : List EngineShip) :
    (check_wall_collision s walls others).hp = s.hp := by
  simp only [check_wall_collision]
  generalize ship_rect_of s.x s.y = r
  generalize walls ++ others.map (fun o => ship_rect_of o.x o.y) = obs
  induction obs generalizing s with
  | nil => rfl
  | cons o os ih =>
    rw [List.foldl_cons]
    rw [ih]
    split_ifs <;> rfl

/-- Keys of an `enumFrom` are at least the starting index. -/
theorem mem_enumFrom_key_ge {α : Type} (l : List α) :
    ∀ (n : ℕ) (p : ℕ × α), p ∈ l.enumFrom n → n ≤ p.1 := by
  induction l with
  | nil => intro n p hp; simp [List.enumFrom] at hp
  | cons a l ih =>
    intro n p hp
    rw [List.enumFrom_cons] at hp
    rcases List.mem_cons.mp hp with h | h
    · rw [h]
    · exact le_of_lt (lt_of_lt_of_le (Nat.lt_succ_self n) (ih (n + 1) p h))

/-- Replacing the entry with key `k` is the identity on association lists
without that key. -/
theorem map_replace_of_keys_ne (A : List (ℕ × EngineShip)) (k : ℕ)
    (s' : EngineShip) (h : ∀ p ∈ A, p.1 ≠ k) :
    A.map (fun p => if p.1 = k then (p.1, s') else p) = A := by
  induction A with
  | nil => rfl
  | cons a A ih =>
    rw [List.map_cons, if_neg (h a (List.mem_cons_self a A))]
    rw [ih fun p hp => h p (List.mem_cons_of_mem a hp)]

/-- Filtering out key `k` is the identity on association lists without that
key. -/
theorem filter_keys_ne_eq_self (A : List (ℕ × EngineShip)) (k : ℕ)
    (h : ∀ p ∈ A, p.1 ≠ k) :
    A.filter (fun p => p.1 ≠ k) = A :=
  List.filter_eq_self.mpr fun p hp => by simp [h p hp]

/-- `lookup` skips a prefix that does not contain the key. -/
theorem lookup_append_keys_ne (A rest : List (ℕ × EngineShip)) (k : ℕ)
    (h : ∀ p ∈ A, p.1 ≠ k) : (A ++ rest).lookup k = rest.lookup k := by
  induction A with
  | nil => rfl
  | cons a A ih =>
    obtain ⟨a1, a2⟩ := a
    have hne : (k == a1) = false := by
      have h1 : a1 ≠ k := h (a1, a2) (List.mem_cons_self _ A)
      simpa using Ne.symm h1
    rw [List.cons_append]
    have h2 : List.lookup k ((a1, a2) :: (A ++ rest)) = List.lookup k (A ++ rest) := by
      simp [List.lookup, hne]
    rw [h2]
    exact ih fun p hp => h p (List.mem_cons_of_mem _ hp)

/-- Projecting the survivor filter of an `enumFrom` onto hp values forgets
the indices. -/
theorem enumFrom_filter_hp_map (l : List EngineShip) :
    ∀ n : ℕ,
      (((l.enumFrom n).filter fun p => 0 < p.2.hp).map fun p => p.2.hp) =
        (l.filter fun s => 0 < s.hp).map fun s => s.hp := by
  induction l with
  | nil => intro n; rfl
  | cons a l ih =>
    intro n
    rw [List.enumFrom_cons, List.filter_cons, List.filter_cons]
    by_cases h : 0 < a.hp
    · simp [h, ih (n + 1)]
    · simp [h, ih (n + 1)]

/-- `spawn_extra` peels off the head ship. -/
theorem spawn_extra_cons (spawns : (ℚ × ℚ × ℚ) × (ℚ × ℚ × ℚ)) (k : ℕ)
    (t : EngineShip) (ts : List EngineShip) :
    spawn_extra spawns k (t :: ts) =
      (if k = 1 ∧ t.hp ≤ 0 then [spawn_enemy spawns.1, spawn_enemy spawns.2]
        else []) ++ spawn_extra spawns (k + 1) ts := by
  match k with
  | 0 => simp [spawn_extra]
  | 1 => by_cases ht : t.hp ≤ 0 <;> simp [spawn_extra, ht]
  | (n + 2) => simp [spawn_extra]

/-- Replacing key `k` in a structured live list hits exactly the middle
entry. -/
theorem map_replace_structured (A E : List (ℕ × EngineShip)) (k : ℕ)
    (t s' : EngineShip) (hA : ∀ p ∈ A, p.1 ≠ k) (hE : ∀ p ∈ E, p.1 ≠ k) :
    (A ++ (k, t) :: E).map (fun p => if p.1 = k then (p.1, s') else p) =
      A ++ (k, s') :: E := by
  rw [List.map_append, List.map_cons, map_replace_of_keys_ne A k s' hA,
    map_replace_of_keys_ne E k s' hE, if_pos rfl]

/-- Filtering key `k` out of a structured live list drops exactly the middle
entry. -/
theorem filter_structured (A E : List (ℕ × EngineShip)) (k : ℕ) (s' : EngineShip)
    (hA : ∀ p ∈ A, p.1 ≠ k) (hE : ∀ p ∈ E, p.1 ≠ k) :
    (A ++ (k, s') :: E).filter (fun p => p.1 ≠ k) = A ++ E := by
  rw [List.filter_append, filter_keys_ne_eq_self A k hA, List.filter_cons,
    filter_keys_ne_eq_self E k hE]
  simp

/-- One iteration of the ship loop at copy-index `k`, evaluated on a live
list split around the entry with key `k`: the physics runs against the
other live ships, a dead ship is dropped (spawning two enemies when
`k = 1`), a surviving ship is written back in place. -/
theorem ship_loop_step_eval (walls : List PyRect)
    (spawns : (ℚ × ℚ × ℚ) × (ℚ × ℚ × ℚ)) (A E : List (ℕ × EngineShip))
    (ns : List EngineShip) (k : ℕ) (t : EngineShip)
    (hA : ∀ p ∈ A, p.1 ≠ k) (hE : ∀ p ∈ E, p.1 ≠ k) :
    ship_loop_step walls spawns (A ++ (k, t) :: E, ns) k =
      if (check_wall_collision (update_position (decide (k = 1)) t) walls
            ((A ++ E).map Prod.snd)).hp ≤ 0 then
        (A ++ E,
          if k = 1 then ns ++ [spawn_enemy spawns.1, spawn_enemy spawns.2] else ns)
      else
        (A ++ (k, check_wall_collision (update_position (decide (k = 1)) t) walls
            ((A ++ E).map Prod.snd)) :: E, ns) := by
  have hlook : (A ++ (k, t) :: E).lookup k = some t := by
    rw [lookup_append_keys_ne _ _ _ hA]
    simp [List.lookup]
  simp only [ship_loop_step, hlook]
  rw [map_replace_structured A E k t _ hA hE]
  rw [filter_structured A E k _ hA hE]
  rw [map_replace_structured A E k _ _ hA hE]
  rw [filter_structured A E k _ hA hE]

/-- Invariant of the ship loop of `GameEngine.update`: folding the loop
over the remaining copy-indices, starting from a processed prefix `A`
(keys below `k`) and the untouched suffix `tail` (keys from `k`), yields
the prefix unchanged, a block of physics-updated survivors whose keyed hp
values are exactly those of `tail`'s survivors, and the spawn contribution
`spawn_extra`. -/
theorem ship_fold (walls : List PyRect) (spawns : (ℚ × ℚ × ℚ) × (ℚ × ℚ × ℚ)) :
    ∀ (tail : List EngineShip) (k : ℕ) (A : List (ℕ × EngineShip))
      (ns : List EngineShip), (∀ p ∈ A, p.1 < k) →
      ∃ B : List (ℕ × EngineShip),
        (List.range' k tail.length).foldl (ship_loop_step walls spawns)
            (A ++ tail.enumFrom k, ns) =
          (A ++ B, ns ++ spawn_extra spawns k tail) ∧
        (∀ p ∈ B, k ≤ p.1) ∧
        B.map (fun p => (p.1, p.2.hp)) =
          ((tail.enumFrom k).filter fun p => 0 < p.2.hp).map fun p =>
            (p.1, p.2.hp) := by
  intro tail
  induction tail with
  | nil =>
    intro k A ns hA
    exact ⟨[], by simp [spawn_extra], by simp, by simp⟩
  | cons t ts ih =>
    intro k A ns hA
    have hA' : ∀ p ∈ A, p.1 ≠ k := fun p hp => Nat.ne_of_lt (hA p hp)
    have hE : ∀ p ∈ ts.enumFrom (k + 1), p.1 ≠ k := fun p hp =>
      Nat.ne_of_gt (lt_of_lt_of_le (Nat.lt_succ_self k)
        (mem_enumFrom_key_ge ts (k + 1) p hp))
    have hrange : List.range' k (t :: ts).length =
        k :: List.range' (k + 1) ts.length := rfl
    rw [hrange, List.enumFrom_cons, List.foldl_cons,
      ship_loop_step_eval walls spawns A (ts.enumFrom (k + 1)) ns k t hA' hE]
    set s2 := check_wall_collision (update_position (decide (k = 1)) t) walls
      ((A ++ ts.enumFrom (k + 1)).map Prod.snd) with hs2
    have hs2hp : s2.hp = t.hp := by
      rw [hs2, check_wall_collision_hp, update_position_hp]
    rw [spawn_extra_cons]
    by_cases ht : t.hp ≤ 0
    · rw [if_pos (by rw [hs2hp]; exact ht)]
      obtain ⟨B, hB1, hB2, hB3⟩ :=
        ih (k + 1) A (if k = 1 then
            ns ++ [spawn_enemy spawns.1, spawn_enemy spawns.2] else ns)
          (fun p hp => lt_of_lt_of_le (hA p hp) (Nat.le_succ k))
      refine ⟨B, ?_, fun p hp => le_of_lt (lt_of_le_of_lt (Nat.le_refl k)
          (lt_of_lt_of_le (Nat.lt_succ_self k) (hB2 p hp))), ?_⟩
      · rw [hB1]
        have hns : (if k = 1 then
              ns ++ [spawn_enemy spawns.1, spawn_enemy spawns.2] else ns) ++
              spawn_extra spawns (k + 1) ts =
            ns ++ ((if k = 1 ∧ t.hp ≤ 0 then
                [spawn_enemy spawns.1, spawn_enemy spawns.2] else []) ++
              spawn_extra spawns (k + 1) ts) := by
          by_cases hk : k = 1
          · rw [if_pos hk, if_pos ⟨hk, ht⟩, List.append_assoc]
          · rw [if_neg hk, if_neg fun hc => hk hc.1, List.nil_append]
        rw [hns]
      · rw [hB3, List.filter_cons]
        have hdead : (decide (0 < ((k, t) : ℕ × EngineShip).2.hp)) = false := by
          simp
          omega
        rw [hdead]
        simp
    · rw [if_neg (by rw [hs2hp]; exact ht)]
      have hstep : (A ++ (k, s2) :: ts.enumFrom (k + 1), ns) =
          ((A ++ [(k, s2)]) ++ ts.enumFrom (k + 1), ns) := by
        rw [List.append_assoc, List.singleton_append]
      rw [hstep]
      obtain ⟨B, hB1, hB2, hB3⟩ := ih (k + 1) (A ++ [(k, s2)]) ns
        (fun p hp => by
          rcases List.mem_append.mp hp with h | h
          · exact lt_of_lt_of_le (hA p h) (Nat.le_succ k)
          · simp at h
            rw [h]
            exact Nat.lt_succ_self k)
      refine ⟨(k, s2) :: B, ?_, ?_, ?_⟩
      · rw [hB1, List.append_assoc, List.singleton_append]
        rw [if_neg fun hc => ht hc.2, List.nil_append]
      · intro p hp
        rcases List.mem_cons.mp hp with h | h
        · rw [h]
        · exact le_of_lt (lt_of_lt_of_le (Nat.lt_succ_self k) (hB2 p h))
      · rw [List.map_cons, hB3, List.filter_cons]
        have halive : (decide (0 < ((k, t) : ℕ × EngineShip).2.hp)) = true := by
          simp
          omega
        rw [halive]
        simp [hs2hp]

/-- The spawn contribution of a full pass, projected to hp values, is two
fresh 100-hp enemies exactly when the index-1 ship died. -/
theorem spawn_extra_zero_hp (spawns : (ℚ × ℚ × ℚ) × (ℚ × ℚ × ℚ))
    (ships : List EngineShip) :
    (spawn_extra spawns 0 ships).map (fun s => s.hp) =
      if index_one_dead ships then [100, 100] else [] := by
  unfold spawn_extra index_one_dead
  rw [if_pos (by omega : (0 : ℕ) ≤ 1)]
  cases h : ships.get? 1 with
  | none => simp
  | some s =>
    by_cases hs : s.hp ≤ 0
    · simp [hs, spawn_enemy]
    · simp [hs]

/-- The ship phase of `GameEngine.update`, projected to hp values: the
survivors (in order, hp unchanged by the physics) followed by two fresh
100-hp enemies exactly when the ship at copy-index 1 was dead. -/
theorem ship_phase_hp (walls : List PyRect) (spawns : (ℚ × ℚ × ℚ) × (ℚ × ℚ × ℚ))
    (ships : List EngineShip) :
    ((ship_phase walls spawns ships).map fun s => s.hp) =
      ((ships.filter fun s => 0 < s.hp).map fun s => s.hp) ++
        (if index_one_dead ships then [100, 100] else []) := by
  obtain ⟨B, hB1, _, hB3⟩ := ship_fold walls spawns ships 0 [] [] (by simp)
  simp only [List.nil_append] at hB1
  unfold ship_phase
  rw [List.range_eq_range']
  have henum : ships.enum = ships.enumFrom 0 := rfl
  rw [henum, hB1]
  rw [List.map_append, List.map_map]
  have hBproj : B.map ((fun s => s.hp) ∘ Prod.snd) =
      (((ships.enumFrom 0).filter fun p => 0 < p.2.hp).map fun p => p.2.hp) := by
    have := congrArg (List.map (fun q : ℕ × ℤ => q.2)) hB3
    rw [List.map_map, List.map_map] at this
    exact this
  rw [hBproj, enumFrom_filter_hp_map ships 0, spawn_extra_zero_hp]

/-- **C10.**  In `GameEngine.update`, only the ship at copy-index 1 is the
scoring enemy.  First conjunct (ship phase): the resulting hp multiset is
the survivors' hp values in order, plus two fresh 100-hp replacement
enemies exactly when the ship at index 1 had hp ≤ 0 — a dead ship at any
other index is removed without spawning anything.  Second conjunct (bullet
phase): each bullet's ship loop adds 10 points exactly when it is a
non-owner hit on the index-1 ship dropping it to hp ≤ 0 — a ship at index 2
or higher dying awards nothing. -/
theorem engine_update_index_one_enemy (walls : List PyRect)
    (spawns : (ℚ × ℚ × ℚ) × (ℚ × ℚ × ℚ)) (ships : List EngineShip) :
    (((ship_phase walls spawns ships).map fun s => s.hp) =
      ((ships.filter fun s => 0 < s.hp).map fun s => s.hp) ++
        (if index_one_dead ships then [100, 100] else [])) ∧
    ∀ (b : EngineBullet) (ships' : List EngineShip) (score : ℤ),
      (bullet_ship_loop b ships' score).2.1 =
        score + (if bullet_kills_index_one b ships' then 10 else 0) :=
  ⟨ship_phase_hp walls spawns ships,
   fun b ships' score => bullet_ship_loop_score b ships' score⟩

end Botfighter
